import Mathlib

/-!
Shallow embedding of the catalog read/write service: the query-parameter
resolvers (pagination, filter, sort) from the product controller, the
TTL response-cache middleware, and the write handlers that invalidate it.
Machine arithmetic in the source is IEEE double on integral values far
below 2^53, so it is modelled exactly by `Int`/`ℚ`; JavaScript `NaN`
and `undefined` are modelled by `Option` layers.
-/

namespace CatalogService

/-- Model of the whitespace class skipped by JavaScript numeric parsing
(space, tab, LF, VT, FF, CR), identified by code point. -/
def jsWhitespace (c : Char) : Bool :=
  c.toNat == 32 || c.toNat == 9 || c.toNat == 10 || c.toNat == 11 ||
  c.toNat == 12 || c.toNat == 13

/-- ASCII decimal digit, identified by code point. -/
def isDigitChar (c : Char) : Bool :=
  decide (48 ≤ c.toNat) && decide (c.toNat ≤ 57)

/-- Value of a list of decimal digit characters, most significant first. -/
def digitsToNat (ds : List Char) : Nat :=
  ds.foldl (fun a c => a * 10 + (c.toNat - 48)) 0

/-- Core of `Number.parseInt(s, 10)` after whitespace skipping: an optional
sign followed by a maximal run of decimal digits; no digits means `NaN`,
modelled as `none`. -/
def jsParseIntCore : List Char → Option Int
  | '-' :: t =>
      let ds := t.takeWhile isDigitChar
      if ds.isEmpty then none else some (-(digitsToNat ds : Int))
  | '+' :: t =>
      let ds := t.takeWhile isDigitChar
      if ds.isEmpty then none else some (digitsToNat ds : Int)
  | t =>
      let ds := t.takeWhile isDigitChar
      if ds.isEmpty then none else some (digitsToNat ds : Int)

/-- Model of `Number.parseInt(s, 10)`: skip leading whitespace, then parse a
signed decimal prefix; `none` models `NaN`. -/
def jsParseInt (s : String) : Option Int :=
  jsParseIntCore (s.toList.dropWhile jsWhitespace)

/-- `Number.parseInt(query.x, 10)` where the parameter may be absent:
`parseInt(undefined, 10)` is `NaN`, modelled as `none`. -/
def jsParseIntOpt : Option String → Option Int
  | none => none
  | some s => jsParseInt s

/-- Strip whitespace from both ends of a character list (the model of
JavaScript `String.prototype.trim` on the ASCII fragment). -/
def trimChars (l : List Char) : List Char :=
  ((l.dropWhile jsWhitespace).reverse.dropWhile jsWhitespace).reverse

/-- `s.trim()` on strings. -/
def jsTrim (s : String) : String := ⟨trimChars s.toList⟩

/-- ASCII lower-casing of one character (`String.prototype.toLowerCase`
restricted to the ASCII fragment the service manipulates). -/
def lowerChar (c : Char) : Char :=
  if 65 ≤ c.toNat ∧ c.toNat ≤ 90 then Char.ofNat (c.toNat + 32) else c

/-- `s.toLowerCase()` on strings. -/
def jsToLower (s : String) : String := ⟨s.toList.map lowerChar⟩

/-- An exact decimal number as produced by parsing a decimal literal:
the represented value is `(-1)^neg * mant / 10^scale`. Integral JavaScript
doubles in range are exact, so this models the parsed values exactly. -/
structure DecNum where
  neg : Bool := false
  mant : Nat
  scale : Nat := 0
deriving Repr, DecidableEq

/-- The rational value a `DecNum` denotes. -/
def DecNum.toRat (d : DecNum) : ℚ :=
  (if d.neg then -1 else 1) * (d.mant : ℚ) / (10 : ℚ) ^ d.scale

/-- Unsigned decimal literal for the `Number(...)` model: digits with an
optional fractional part (`"12"`, `"12.5"`, `".5"`, `"5."`); anything
else is `NaN` (`none`). -/
def parseDecCore (l : List Char) : Option DecNum :=
  let ip := l.takeWhile isDigitChar
  match l.dropWhile isDigitChar with
  | [] => if ip.isEmpty then none else some { mant := digitsToNat ip }
  | '.' :: fr =>
      let fp := fr.takeWhile isDigitChar
      if (fr.dropWhile isDigitChar).isEmpty then
        if ip.isEmpty && fp.isEmpty then none
        else some { mant := digitsToNat ip * 10 ^ fp.length + digitsToNat fp,
                    scale := fp.length }
      else none
  | _ => none

/-- Model of JavaScript `Number(s)` on the decimal-literal fragment: trim
whitespace; the empty string is `0`; otherwise an optional sign and a
decimal literal; failure (`NaN`) is `none`. -/
def jsNumber (s : String) : Option DecNum :=
  match trimChars s.toList with
  | [] => some { mant := 0 }
  | '-' :: t => (parseDecCore t).map (fun d => { d with neg := true })
  | '+' :: t => parseDecCore t
  | t => parseDecCore t

/-- The raw query-parameter mapping handed to the read pipeline; each
parameter is either absent (`none`, JavaScript `undefined`) or a string. -/
structure Query where
  page : Option String := none
  limit : Option String := none
  category : Option String := none
  minPrice : Option String := none
  maxPrice : Option String := none
  tags : Option String := none
  search : Option String := none
  sort : Option String := none
deriving Repr, DecidableEq

/-- Resolved pagination spec returned by `parsePagination`. -/
structure Pagination where
  page : Int
  limit : Int
  skip : Int
deriving Repr, DecidableEq

/-- `parsePagination(query)`: `parseInt` both inputs; `NaN` or `< 1` page
falls back to 1, `NaN`, `< 1` or `> 100` limit falls back to 20, and
`skip = (page - 1) * limit`. -/
def parsePagination (q : Query) : Pagination :=
  let page0 := jsParseIntOpt q.page
  let limit0 := jsParseIntOpt q.limit
  let page : Int := match page0 with
    | none => 1
    | some p => if p < 1 then 1 else p
  let limit : Int := match limit0 with
    | none => 20
    | some l => if l < 1 || l > 100 then 20 else l
  { page := page, limit := limit, skip := (page - 1) * limit }

/-- JavaScript string truthiness for a possibly-absent query parameter:
`undefined` and the empty string are falsy. -/
def truthyStr : Option String → Bool
  | none => false
  | some s => !(s == "")

/-- The JavaScript value `query.x != null ? Number(query.x) : undefined`:
`undef` when the parameter is absent, `nan` when `Number` fails, otherwise
the numeric value. -/
inductive JNum where
  | undef
  | nan
  | num (q : DecNum)
deriving Repr, DecidableEq

/-- Coerce an optional raw bound through `Number(...)` as the filter
builder does. -/
def toJNum : Option String → JNum
  | none => .undef
  | some s =>
    match jsNumber s with
    | none => .nan
    | some q => .num q

/-- `Number.isNaN(v)`: true exactly on the `NaN` value (not on
`undefined`). -/
def jsIsNaN : JNum → Bool
  | .nan => true
  | _ => false

/-- The `price` sub-object of the filter. Each bound key is absent
(`none`), present holding JavaScript `undefined` (`some none`), or present
holding a number (`some (some q)`). -/
structure PriceFilter where
  gte : Option (Option DecNum) := none
  lte : Option (Option DecNum) := none
deriving Repr, DecidableEq

/-- The structured MongoDB filter object built by `buildProductFilter`:
`isActive` plus optional `category`, `price`, `tags` (`$in` list) and
`text` (`$text.$search`) keys. -/
structure ProductFilter where
  isActive : Bool
  category : Option String := none
  price : Option PriceFilter := none
  tags : Option (List String) := none
  text : Option String := none
deriving Repr, DecidableEq

/-- `String.prototype.split(',')` at the character level: the list of
comma-separated segments (an empty input yields one empty segment, as in
JavaScript). -/
def splitCommas : List Char → List (List Char)
  | [] => [[]]
  | c :: t =>
    let r := splitCommas t
    if c = ',' then [] :: r
    else
      match r with
      | [] => [[c]]
      | h :: t2 => (c :: h) :: t2

/-- The tag list computation inside `buildProductFilter`: split the raw
value on commas, trim and lower-case each piece, and drop falsy (empty)
pieces. -/
def splitTags (s : String) : List String :=
  (((splitCommas s.toList).map
      (fun l => (⟨(trimChars l).map lowerChar⟩ : String))).filter
    (fun t => !(t == "")))

/-- `buildProductFilter(query)`: always asserts `isActive: true`; adds a
lower-cased `category` equality for a truthy `category` parameter; adds a
`price` sub-object whenever `Number.isNaN` is false for either coerced
bound (note `Number.isNaN(undefined)` is false), each non-`NaN` bound
being written into it; adds a `tags` `$in` list when the truthy `tags`
parameter splits to a non-empty list; passes a truthy `search` parameter
through as the text predicate. -/
def buildProductFilter (q : Query) : ProductFilter :=
  let f0 : ProductFilter := { isActive := true }
  let f1 := if truthyStr q.category then
      { f0 with category := some (jsToLower (q.category.getD "")) }
    else f0
  let minPrice := toJNum q.minPrice
  let maxPrice := toJNum q.maxPrice
  let f2 := if !jsIsNaN minPrice || !jsIsNaN maxPrice then
      let p0 : PriceFilter := {}
      let p1 := match minPrice with
        | .undef => { p0 with gte := some none }
        | .nan => p0
        | .num q => { p0 with gte := some (some q) }
      let p2 := match maxPrice with
        | .undef => { p1 with lte := some none }
        | .nan => p1
        | .num q => { p1 with lte := some (some q) }
      { f1 with price := some p2 }
    else f1
  let f3 := match q.tags with
    | some s =>
        if truthyStr q.tags then
          let tags := splitTags s
          if tags.length > 0 then { f2 with tags := some tags } else f2
        else f2
    | none => f2
  match q.search with
  | some s => if truthyStr q.search then { f3 with text := some s } else f3
  | none => f3

/-- The resolved sort pair: a field name and a direction (`1` ascending,
`-1` descending). -/
structure SortSpec where
  field : String
  direction : Int
deriving Repr, DecidableEq

/-- The whitelist of sortable fields. -/
def allowedSortFields : List String := ["price", "createdAt", "rating", "name"]

/-- `field.startsWith('-') ? -1 : 1`. -/
def sortDirection (field : List Char) : Int :=
  match field with
  | '-' :: _ => -1
  | _ => 1

/-- The replace of one leading dash with the empty string. -/
def stripDash (field : List Char) : List Char :=
  match field with
  | '-' :: rest => rest
  | l => l

/-- `parseSort(sortParam)`: falsy input gives the default
`{createdAt: -1}`; otherwise trim, read one leading `-` as descending,
strip it, and keep the field only if whitelisted, falling back to the
default. -/
def parseSort (sortParam : Option String) : SortSpec :=
  match sortParam with
  | none => ⟨"createdAt", -1⟩
  | some s =>
    if s == "" then ⟨"createdAt", -1⟩
    else
      let field := trimChars s.toList
      let direction : Int := sortDirection field
      let cleanField : List Char := stripDash field
      if allowedSortFields.contains ⟨cleanField⟩ then ⟨⟨cleanField⟩, direction⟩
      else ⟨"createdAt", -1⟩

/-- The field part of a raw sort token in the sense of the spec: the
trimmed token with one leading dash stripped. -/
def cleanSortField (t : String) : String :=
  ⟨stripDash (trimChars t.toList)⟩

/-! ## Response cache middleware -/

/-- One cached entry: the captured response payload and its absolute
expiry timestamp (milliseconds). -/
structure CacheEntry (α : Type) where
  payload : α
  expiresAt : Nat
deriving Repr, DecidableEq

/-- The shared cache store (`cacheStore : Map`), as an association list
from keys to entries. -/
abbrev Cache (α : Type) : Type := List (String × CacheEntry α)

/-- `cacheStore.get(key)`. -/
def cacheGet {α : Type} (c : Cache α) (key : String) : Option (CacheEntry α) :=
  (c.find? (fun p => p.1 == key)).map (fun p => p.2)

/-- `cacheStore.set(key, entry)`: overwrite any entry for the key. -/
def cacheSet {α : Type} (c : Cache α) (key : String) (e : CacheEntry α) : Cache α :=
  (key, e) :: c.filter (fun p => !(p.1 == key))

/-- `invalidateCache()`: `cacheStore.clear()`. -/
def invalidateCache {α : Type} (_ : Cache α) : Cache α := []

/-- An HTTP response as the handlers emit it: a status code and a
JSON-serialized body. -/
structure Response (α : Type) where
  status : Nat
  body : α
deriving Repr, DecidableEq

/-- The observable outcome of one `GET` request through
`cacheMiddleware(ttlSeconds)`: the response sent, the cache store
afterwards, and whether the wrapped handler ran. -/
structure GetOutcome (α : Type) where
  response : Response α
  cache : Cache α
  handlerRan : Bool

/-- `cached && cached.expiresAt > now`: the key holds a live entry. -/
def isLive {α : Type} (c : Cache α) (key : String) (now : Nat) : Bool :=
  match cacheGet c key with
  | some e => decide (now < e.expiresAt)
  | none => false

/-- One `GET` request through `cacheMiddleware(ttlSeconds)` wrapping a
handler whose emitted response is `handler`. A live entry short-circuits:
its payload is re-sent with `res.json` (status 200) and the handler never
runs. Otherwise the handler runs and the patched `res.json` stores
whatever body the handler passes it, with `expiresAt` computed from the
`now` captured at miss detection, before sending it. -/
def cacheMiddleware {α : Type} (ttlSeconds now : Nat) (key : String)
    (handler : Response α) (c : Cache α) : GetOutcome α :=
  match cacheGet c key with
  | some e =>
    if now < e.expiresAt then
      { response := ⟨200, e.payload⟩, cache := c, handlerRan := false }
    else
      { response := handler,
        cache := cacheSet c key ⟨handler.body, now + ttlSeconds * 1000⟩,
        handlerRan := true }
  | none =>
      { response := handler,
        cache := cacheSet c key ⟨handler.body, now + ttlSeconds * 1000⟩,
        handlerRan := true }

/-! ## Product handlers -/

/-- The slice of a product record the write handlers return; field values
are irrelevant to the cached-state claims. -/
structure Product where
  name : String
  slug : String
deriving Repr, DecidableEq

/-- A JSON response body: an error/info message object, a full product
record, or the empty body of a 204. -/
inductive Payload where
  | msg (s : String)
  | product (p : Product)
  | empty
deriving Repr, DecidableEq

/-- ASCII hexadecimal digit. -/
def isHexChar (c : Char) : Bool :=
  isDigitChar c || (decide (97 ≤ c.toNat) && decide (c.toNat ≤ 102)) ||
  (decide (65 ≤ c.toNat) && decide (c.toNat ≤ 70))

/-- `mongoose.Types.ObjectId.isValid(id)` on strings: a 24-character hex
string, or any 12-character string (interpreted as 12 raw bytes). -/
def isValidObjectId (s : String) : Bool :=
  (s.toList.length == 24 && s.toList.all isHexChar) || s.toList.length == 12

/-- `getProductById` as a function of the store (`findById`) and the raw
identifier: 400 for a malformed id, 404 when absent, otherwise the full
record. -/
def getProductById (db : String → Option Product) (id : String) : Response Payload :=
  if !isValidObjectId id then ⟨400, .msg "Invalid product id"⟩
  else
    match db id with
    | none => ⟨404, .msg "Product not found"⟩
    | some p => ⟨200, .product p⟩

/-- Result of a storage write: success with the produced record, the
duplicate-key error (`err.code === 11000`), or any other fault passed to
`next(err)`. -/
inductive WriteResult (α : Type) where
  | ok (a : α)
  | dupKey
  | fault
deriving Repr, DecidableEq

/-- What a write handler leaves behind: the response it sent (`none` when
the error was forwarded to `next`), the cache store afterwards, and
whether `invalidateCache` was called. -/
structure WriteOutcome (α : Type) where
  response : Option (Response Payload)
  cache : Cache α
  invalidated : Bool

/-- The request body of `createProduct`; only the four required fields
take part in validation (`!name || !slug || price == null || !category`),
where a string field is falsy when absent or empty and `price == null`
holds exactly when the field is absent. -/
structure CreateBody where
  name : Option String := none
  slug : Option String := none
  price : Option DecNum := none
  category : Option String := none
deriving Repr, DecidableEq

/-- `createProduct`: reject with 400 when a required field is missing
(before any storage access); then create, and on success invalidate the
whole cache and answer 201; a duplicate key answers 409 and any other
fault goes to `next` — neither touches the cache. -/
def createProduct {α : Type} (body : CreateBody) (dbCreate : WriteResult Product)
    (c : Cache α) : WriteOutcome α :=
  if !truthyStr body.name || !truthyStr body.slug || body.price.isNone ||
      !truthyStr body.category then
    ⟨some ⟨400, .msg "name, slug, price and category are required"⟩, c, false⟩
  else
    match dbCreate with
    | .ok p => ⟨some ⟨201, .product p⟩, invalidateCache c, true⟩
    | .dupKey => ⟨some ⟨409, .msg "Slug must be unique"⟩, c, false⟩
    | .fault => ⟨none, c, false⟩

/-- `updateProduct`: 400 for a malformed id; 404 when `findByIdAndUpdate`
matches nothing; on success invalidate the whole cache and answer 200;
409 on duplicate key, other faults to `next` — neither touches the
cache. -/
def updateProduct {α : Type} (id : String) (dbUpdate : WriteResult (Option Product))
    (c : Cache α) : WriteOutcome α :=
  if !isValidObjectId id then ⟨some ⟨400, .msg "Invalid product id"⟩, c, false⟩
  else
    match dbUpdate with
    | .ok none => ⟨some ⟨404, .msg "Product not found"⟩, c, false⟩
    | .ok (some p) => ⟨some ⟨200, .product p⟩, invalidateCache c, true⟩
    | .dupKey => ⟨some ⟨409, .msg "Slug must be unique"⟩, c, false⟩
    | .fault => ⟨none, c, false⟩

/-- `deleteProduct`: 400 for a malformed id; 404 when `findByIdAndDelete`
matches nothing; on success invalidate the whole cache and answer 204
with an empty body; its `catch` has no duplicate-key branch, so every
storage error goes to `next` without touching the cache. -/
def deleteProduct {α : Type} (id : String) (dbDelete : WriteResult (Option Product))
    (c : Cache α) : WriteOutcome α :=
  if !isValidObjectId id then ⟨some ⟨400, .msg "Invalid product id"⟩, c, false⟩
  else
    match dbDelete with
    | .ok none => ⟨some ⟨404, .msg "Product not found"⟩, c, false⟩
    | .ok (some _) => ⟨some ⟨204, .empty⟩, invalidateCache c, true⟩
    | .dupKey => ⟨none, c, false⟩
    | .fault => ⟨none, c, false⟩

/-- An empty product store: findById never matches. -/
def emptyDb : String → Option Product := fun _ => none

/-- A create body with all four required fields present. -/
def okBody : CreateBody :=
  { name := some "n", slug := some "s", price := some ⟨false, 5, 0⟩,
    category := some "c" }

/-- A create body missing the required name field. -/
def noNameBody : CreateBody :=
  { slug := some "s", price := some ⟨false, 5, 0⟩, category := some "c" }

example : parsePagination {} = ⟨1, 20, 0⟩ := by decide
example : parsePagination { page := some "3", limit := some "50" } = ⟨3, 50, 100⟩ := by decide
example : parsePagination { page := some "0", limit := some "1000" } = ⟨1, 20, 0⟩ := by decide
example : parsePagination { page := some "5abc" } = ⟨5, 20, 80⟩ := by decide
example : parsePagination { page := some "abc", limit := some "-3" } = ⟨1, 20, 0⟩ := by decide
example : (buildProductFilter {}).price = some { gte := some none, lte := some none } := by decide
example : (buildProductFilter { minPrice := some "xyz", maxPrice := some "qq" }).price = none := by decide
example : (buildProductFilter { minPrice := some "2.5" }).price
    = some { gte := some (some { mant := 25, scale := 1 }), lte := some none } := by decide
example : (jsNumber "2.5").map DecNum.toRat = some (5 / 2 : ℚ) := by
  have h : jsNumber "2.5" = some { mant := 25, scale := 1 } := by decide
  rw [h]
  norm_num [DecNum.toRat]
example : (buildProductFilter { tags := some " Red, BLUE ,blue" }).tags
    = some ["red", "blue", "blue"] := by decide
example : parseSort none = ⟨"createdAt", -1⟩ := by decide
example : parseSort (some "-price") = ⟨"price", -1⟩ := by decide
example : parseSort (some " rating ") = ⟨"rating", 1⟩ := by decide
example : parseSort (some "--price") = ⟨"createdAt", -1⟩ := by decide
example : parseSort (some "hack") = ⟨"createdAt", -1⟩ := by decide

/-! ## Helper lemmas -/

theorem cacheGet_cacheSet_self {α : Type} (c : Cache α) (k : String) (e : CacheEntry α) :
    cacheGet (cacheSet c k e) k = some e := by
  simp [cacheGet, cacheSet]

theorem buildProductFilter_isActive (q : Query) :
    (buildProductFilter q).isActive = true := by
  unfold buildProductFilter
  dsimp only
  repeat' split
  all_goals rfl

/-- C8: the structured filter produced by the Filter Builder always
contains the active-only predicate (isActive = true); no query
parameter (category, price bounds, tags, search or anything else)
can remove, override or negate it. -/
theorem c8_filter_always_active_only (q : Query) :
    (buildProductFilter q).isActive = true :=
  buildProductFilter_isActive q

/-- C1: evaluation of the Filter Builder at the failing input. The claim
says a query with neither minPrice nor maxPrice yields no price predicate,
but because Number.isNaN(undefined) is false the guard fires and the
builder emits a price sub-object whose two bound keys hold the JavaScript
value undefined; a malformed bound alongside an absent one likewise leaves
a price sub-object carrying the absent bound as undefined (the malformed
bound itself is indeed omitted rather than becoming zero). -/
theorem c1_absent_bounds_still_emit_price_predicate :
    (buildProductFilter {}).price = some { gte := some none, lte := some none } ∧
    (buildProductFilter { minPrice := some "abc" }).price
      = some { gte := none, lte := some none } ∧
    ¬ (buildProductFilter {}).price = none := by
  refine ⟨by decide, by decide, by decide⟩

/-- C2: counterexample to the stated claim. For the tags parameter
" Red, BLUE ,blue" the Filter Builder produces the membership list
["red", "blue", "blue"]: it is not deduplicated and its size is 3, not
2, so the tag predicate is not a set. -/
theorem c2_tags_not_deduplicated :
    (buildProductFilter { tags := some " Red, BLUE ,blue" }).tags
      = some ["red", "blue", "blue"] ∧
    (["red", "blue", "blue"] : List String).length = 3 ∧
    ¬ (["red", "blue", "blue"] : List String).Nodup := by
  refine ⟨by decide, by decide, by decide⟩

/-- C2 (amended): the Filter Builder splits the tags value on commas,
trims and lower-cases each entry and discards empty entries, but performs
no deduplication, so the tag predicate is a list that may repeat values;
for " Red, BLUE ,blue" it is ["red", "blue", "blue"], whose list of
distinct values is ["red", "blue"] of size exactly 2 (the set semantics
of membership is unaffected by the repetition). -/
theorem c2_amended_tags_normalized_list :
    (∀ s : String, (splitTags s).all (fun t => !(t == "")) = true) ∧
    (buildProductFilter { tags := some " Red, BLUE ,blue" }).tags
      = some ["red", "blue", "blue"] ∧
    (["red", "blue", "blue"] : List String).dedup = ["red", "blue"] ∧
    (["red", "blue", "blue"] : List String).dedup.length = 2 := by
  refine ⟨fun s => ?_, by decide, by decide, by decide⟩
  simp only [splitTags, List.all_filter]
  exact List.all_eq_true.mpr (fun a _ => by simp)

/-- C6: the Pagination Resolver is total and never fails: a page input
that parses to NaN or to a value below 1 resolves to page 1; a limit
input that parses to NaN, to a value below 1 or to a value above
MAX_LIMIT = 100 resolves to the default 20; the resolved values always
satisfy 1 ≤ page, 1 ≤ limit ≤ 100, and skip = (page - 1) * limit. -/
theorem c6_pagination_total_with_defaults (q : Query) :
    (parsePagination q).skip
      = ((parsePagination q).page - 1) * (parsePagination q).limit ∧
    (jsParseIntOpt q.page = none → (parsePagination q).page = 1) ∧
    (∀ v : Int, jsParseIntOpt q.page = some v → v < 1 →
      (parsePagination q).page = 1) ∧
    (jsParseIntOpt q.limit = none → (parsePagination q).limit = 20) ∧
    (∀ v : Int, jsParseIntOpt q.limit = some v → (v < 1 ∨ 100 < v) →
      (parsePagination q).limit = 20) ∧
    1 ≤ (parsePagination q).page ∧
    1 ≤ (parsePagination q).limit ∧ (parsePagination q).limit ≤ 100 := by
  unfold parsePagination
  rcases jsParseIntOpt q.page with _ | p <;> rcases jsParseIntOpt q.limit with _ | l <;>
    dsimp only <;>
    simp only [Bool.or_eq_true, decide_eq_true_eq] <;>
    refine ⟨?_, ?_, ?_, ?_, ?_, ?_, ?_, ?_⟩ <;>
    first
      | trivial
      | (intro h; rfl)
      | (intro h; cases h; done)
      | (intro v hv hlt; cases hv; split <;> omega)
      | (intro v hv; cases hv; done)
      | (split <;> omega)
      | omega


/-- C6 witness: at page "abc" (NaN) and limit "1000" (above MAX_LIMIT)
the resolver returns the defaults page 1, limit 20, skip 0. -/
theorem c6_pagination_witness :
    (parsePagination { page := some "abc", limit := some "1000" }).page = 1 ∧
    (parsePagination { page := some "abc", limit := some "1000" }).limit = 20 := by
  have h := c6_pagination_total_with_defaults
    { page := some "abc", limit := some "1000" }
  exact ⟨h.2.1 (by decide), h.2.2.2.2.1 1000 (by decide) (by decide)⟩

theorem parseSort_some_eq (t : String) :
    parseSort (some t) =
      if t == "" then ⟨"createdAt", -1⟩
      else if allowedSortFields.contains (cleanSortField t) then
        ⟨cleanSortField t, sortDirection (trimChars t.toList)⟩
      else ⟨"createdAt", -1⟩ := rfl

/-- C7: the Sort Resolver only ever returns a whitelisted field; an
absent token, the empty token, and any token whose field (after one
leading dash is stripped) is outside the whitelist all resolve to the
default createdAt descending; for a whitelisted field a leading dash
gives descending order and its absence ascending order. -/
theorem c7_sort_resolver_whitelist :
    (∀ s : Option String, allowedSortFields.contains (parseSort s).field = true) ∧
    parseSort none = ⟨"createdAt", -1⟩ ∧
    parseSort (some "") = ⟨"createdAt", -1⟩ ∧
    (∀ t : String, allowedSortFields.contains (cleanSortField t) = false →
      parseSort (some t) = ⟨"createdAt", -1⟩) ∧
    (∀ f : String, allowedSortFields.contains f = true →
      parseSort (some ("-" ++ f)) = ⟨f, -1⟩ ∧ parseSort (some f) = ⟨f, 1⟩) := by
  refine ⟨?_, rfl, by decide, ?_, ?_⟩
  · intro s
    cases s with
    | none => decide
    | some t =>
      rw [parseSort_some_eq]
      by_cases he : (t == "") = true
      · rw [if_pos he]; decide
      · rw [if_neg he]
        by_cases hc : allowedSortFields.contains (cleanSortField t) = true
        · rw [if_pos hc]; exact hc
        · rw [if_neg hc]; decide
  · intro t h
    rw [parseSort_some_eq]
    by_cases he : (t == "") = true
    · rw [if_pos he]
    · rw [if_neg he, if_neg]
      rw [h]
      exact Bool.false_ne_true
  · intro f hf
    have hmem : f ∈ allowedSortFields := by simpa using hf
    fin_cases hmem <;> exact ⟨by decide, by decide⟩

/-- C7 witness: the unlisted token "hack" falls back to the default and
the whitelisted token "-price" sorts by price descending. -/
theorem c7_sort_witness :
    parseSort (some "hack") = ⟨"createdAt", -1⟩ ∧
    parseSort (some "-price") = ⟨"price", -1⟩ :=
  ⟨c7_sort_resolver_whitelist.2.2.2.1 "hack" (by decide),
    (c7_sort_resolver_whitelist.2.2.2.2 "price" (by decide)).1⟩

theorem digit_not_jsWhitespace {c : Char} (h : isDigitChar c = true) :
    jsWhitespace c = false := by
  simp only [isDigitChar, Bool.and_eq_true, decide_eq_true_eq] at h
  simp only [jsWhitespace, Bool.or_eq_false_iff, beq_eq_false_iff_ne, ne_eq]
  omega

theorem takeWhile_append_all {p : Char → Bool} :
    ∀ (l r : List Char), l.all p = true →
      (∀ c, r.head? = some c → p c = false) → (l ++ r).takeWhile p = l := by
  intro l r hl hr
  induction l with
  | nil =>
    cases r with
    | nil => rfl
    | cons c t => simp [List.takeWhile_cons, hr c rfl]
  | cons a l ih =>
    simp only [List.all_cons, Bool.and_eq_true] at hl
    simp [List.takeWhile_cons, hl.1, ih hl.2]

/-- C10: a page or limit input whose leading characters form a base-10
integer followed by non-digit characters is accepted at the integer
prefix value rather than treated as non-numeric: parseInt of digits ++
rest returns the value of the digit prefix, so page "5abc" resolves to
page 5 (and limit "50x" to limit 50), not to a default. -/
theorem c10_integer_prefix_accepted :
    (∀ s rest : String, s.toList ≠ [] → s.toList.all isDigitChar = true →
      (∀ c, rest.toList.head? = some c → isDigitChar c = false) →
      jsParseInt (s ++ rest) = some ((digitsToNat s.toList : Nat) : Int)) ∧
    parsePagination { page := some "5abc" } = ⟨5, 20, 80⟩ ∧
    parsePagination { limit := some "50x" } = ⟨1, 50, 0⟩ := by
  refine ⟨?_, by decide, by decide⟩
  intro s rest hne hall hhd
  unfold jsParseInt
  have hdata : (s ++ rest).toList = s.toList ++ rest.toList := rfl
  rw [hdata]
  obtain ⟨c, cs, hcons⟩ : ∃ c cs, s.toList = c :: cs := by
    cases hs : s.toList with
    | nil => exact absurd hs hne
    | cons c cs => exact ⟨c, cs, rfl⟩
  rw [hcons]
  have hcd : isDigitChar c = true := by
    rw [hcons] at hall
    simp only [List.all_cons, Bool.and_eq_true] at hall
    exact hall.1
  have hall2 : (c :: cs).all isDigitChar = true := by rw [← hcons]; exact hall
  rw [List.cons_append, List.dropWhile_cons, digit_not_jsWhitespace hcd]
  simp only [Bool.false_eq_true, if_false]
  rw [← List.cons_append]
  unfold jsParseIntCore
  split
  · rename_i heq
    rw [List.cons_append] at heq
    injection heq with h1 _
    rw [h1] at hcd
    exact absurd hcd (by decide)
  · rename_i heq
    rw [List.cons_append] at heq
    injection heq with h1 _
    rw [h1] at hcd
    exact absurd hcd (by decide)
  · rw [takeWhile_append_all (c :: cs) rest.toList hall2 hhd]
    simp [hcons]

/-- C10 witness: parseInt on "17xy" accepts the integer prefix 17. -/
theorem c10_integer_prefix_witness : jsParseInt ("17" ++ "xy") = some 17 := by
  have h := c10_integer_prefix_accepted.1 "17" "xy" (by decide) (by decide)
    (by intro c hc; cases hc; decide)
  simpa using h

theorem cacheMiddleware_miss {α : Type} (ttlSeconds now : Nat) (key : String)
    (handler : Response α) (c : Cache α) (hmiss : isLive c key now = false) :
    cacheMiddleware ttlSeconds now key handler c =
      ⟨handler, cacheSet c key ⟨handler.body, now + ttlSeconds * 1000⟩, true⟩ := by
  unfold cacheMiddleware
  unfold isLive at hmiss
  cases hget : cacheGet c key with
  | none => rfl
  | some e =>
    rw [hget] at hmiss
    simp only [decide_eq_false_iff_not] at hmiss
    dsimp only
    rw [if_neg hmiss]

/-- C4: when the computed key holds a stored entry, the middleware serves
the stored payload without invoking the wrapped handler exactly when the
current time is strictly before the entry's expiresAt (the cache is left
untouched on a hit); once the TTL has elapsed the request is treated as a
miss: the handler runs, its fresh payload is sent and stored under the
key with a new expiry. -/
theorem c4_hit_iff_before_expiry {α : Type} (ttlSeconds now : Nat) (key : String)
    (handler : Response α) (c : Cache α) (e : CacheEntry α)
    (hget : cacheGet c key = some e) :
    ((cacheMiddleware ttlSeconds now key handler c).handlerRan = false ↔
      now < e.expiresAt) ∧
    (now < e.expiresAt →
      cacheMiddleware ttlSeconds now key handler c = ⟨⟨200, e.payload⟩, c, false⟩) ∧
    (e.expiresAt ≤ now →
      (cacheMiddleware ttlSeconds now key handler c).handlerRan = true ∧
      (cacheMiddleware ttlSeconds now key handler c).response = handler ∧
      cacheGet (cacheMiddleware ttlSeconds now key handler c).cache key
        = some ⟨handler.body, now + ttlSeconds * 1000⟩) := by
  unfold cacheMiddleware
  rw [hget]
  dsimp only
  by_cases h : now < e.expiresAt
  · rw [if_pos h]
    exact ⟨by simp [h], fun _ => rfl, fun hle => absurd h (by omega)⟩
  · rw [if_neg h]
    exact ⟨by simp [h], fun hlt => absurd hlt h,
      fun _ => ⟨rfl, rfl, cacheGet_cacheSet_self c key _⟩⟩

/-- C4 witness: with an entry expiring at 10 under key "k", a request at
time 5 is served from the cache without running the handler, and a
request at time 10 reruns the handler and restores the key. -/
theorem c4_hit_iff_before_expiry_witness :
    cacheMiddleware 30 5 "k" (⟨200, 99⟩ : Response Nat) [("k", ⟨7, 10⟩)]
      = ⟨⟨200, 7⟩, [("k", ⟨7, 10⟩)], false⟩ ∧
    cacheGet (cacheMiddleware 30 10 "k" (⟨200, 99⟩ : Response Nat)
        [("k", ⟨7, 10⟩)]).cache "k" = some ⟨99, 30010⟩ :=
  ⟨(c4_hit_iff_before_expiry 30 5 "k" ⟨200, 99⟩ [("k", ⟨7, 10⟩)] ⟨7, 10⟩
      (by decide)).2.1 (by decide),
    ((c4_hit_iff_before_expiry 30 10 "k" ⟨200, 99⟩ [("k", ⟨7, 10⟩)] ⟨7, 10⟩
      (by decide)).2.2 (by decide)).2.2⟩

/-- C5: on a miss the stored entry's expiresAt is the timestamp captured
at miss detection plus the TTL, not the store timestamp: if the wrapped
handler takes d milliseconds to produce the payload (so the patched
res.json stores it at time now + d), the stored expiry still equals
now + ttl*1000 = (now + d) + (ttl*1000 - d), leaving the entry servable
for only ttl*1000 - d milliseconds after it is stored. -/
theorem c5_ttl_window_shrinks_by_handler_latency {α : Type}
    (ttlSeconds now d : Nat) (key : String) (handler : Response α) (c : Cache α)
    (hmiss : isLive c key now = false) (hd : d ≤ ttlSeconds * 1000) :
    ∃ e, cacheGet (cacheMiddleware ttlSeconds now key handler c).cache key = some e ∧
      e.payload = handler.body ∧
      e.expiresAt = now + ttlSeconds * 1000 ∧
      e.expiresAt = (now + d) + (ttlSeconds * 1000 - d) := by
  refine ⟨⟨handler.body, now + ttlSeconds * 1000⟩, ?_, rfl, rfl, ?_⟩
  swap
  · show now + ttlSeconds * 1000 = now + d + (ttlSeconds * 1000 - d)
    omega
  rw [cacheMiddleware_miss ttlSeconds now key handler c hmiss]
  exact cacheGet_cacheSet_self c key _

/-- C5 witness: ttl 30 s, miss detected at time 1000, handler latency
20000 ms: the entry is stored at 21000 but expires at 31000, i.e. only
10000 ms after the store. -/
theorem c5_ttl_window_witness :
    ∃ e, cacheGet (cacheMiddleware 30 1000 "k" (⟨200, 1⟩ : Response Nat) []).cache "k"
        = some e ∧
      e.payload = 1 ∧ e.expiresAt = 31000 ∧ e.expiresAt = 21000 + 10000 := by
  have h := c5_ttl_window_shrinks_by_handler_latency 30 1000 20000 "k"
    (⟨200, 1⟩ : Response Nat) [] (by decide) (by decide)
  simpa using h

/-- C3: counterexample to the stated claim. The patched res.json captures
every body that passes through it, with no status filtering: for the
malformed id "xyz" the detail handler emits the 400 invalid-identifier
body, the middleware stores that error payload under the key, and a
second request for the same key within the TTL is answered from the cache
(with status 200 and the error body) without invoking the handler. -/
theorem c3_error_payload_is_cached_and_served :
    getProductById emptyDb "xyz" = ⟨400, .msg "Invalid product id"⟩ ∧
    cacheGet (cacheMiddleware 60 1000 "GET:/api/products/xyz"
        (getProductById emptyDb "xyz") ([] : Cache Payload)).cache
        "GET:/api/products/xyz"
      = some ⟨.msg "Invalid product id", 61000⟩ ∧
    (cacheMiddleware 60 2000 "GET:/api/products/xyz"
        (getProductById emptyDb "xyz")
        (cacheMiddleware 60 1000 "GET:/api/products/xyz"
          (getProductById emptyDb "xyz") ([] : Cache Payload)).cache).response
      = ⟨200, .msg "Invalid product id"⟩ ∧
    (cacheMiddleware 60 2000 "GET:/api/products/xyz"
        (getProductById emptyDb "xyz")
        (cacheMiddleware 60 1000 "GET:/api/products/xyz"
          (getProductById emptyDb "xyz") ([] : Cache Payload)).cache).handlerRan
      = false := by
  refine ⟨by decide, by decide, by decide, by decide⟩

/-- C3 (amended): on a cache miss the Response Cache stores whatever
payload the wrapped handler passes to res.json, regardless of the
response status — error bodies such as the 400 invalid-identifier and
404 not-found bodies included — and any later request for the same key
strictly inside the TTL window is served that stored payload without the
wrapped handler running. -/
theorem c3_amended_cache_stores_any_status {α : Type}
    (ttlSeconds now later : Nat) (key : String) (handler freshHandler : Response α)
    (c : Cache α) (hmiss : isLive c key now = false)
    (hfresh : later < now + ttlSeconds * 1000) :
    (cacheMiddleware ttlSeconds now key handler c).handlerRan = true ∧
    (cacheMiddleware ttlSeconds now key handler c).response = handler ∧
    cacheGet (cacheMiddleware ttlSeconds now key handler c).cache key
      = some ⟨handler.body, now + ttlSeconds * 1000⟩ ∧
    cacheMiddleware ttlSeconds later key freshHandler
        (cacheMiddleware ttlSeconds now key handler c).cache
      = ⟨⟨200, handler.body⟩,
          (cacheMiddleware ttlSeconds now key handler c).cache, false⟩ := by
  rw [cacheMiddleware_miss ttlSeconds now key handler c hmiss]
  refine ⟨rfl, rfl, cacheGet_cacheSet_self c key _, ?_⟩
  unfold cacheMiddleware
  rw [cacheGet_cacheSet_self c key _]
  dsimp only
  rw [if_pos hfresh]

/-- C3 amended witness: a 404 body cached at time 0 with ttl 60 is served
back at time 59999. -/
theorem c3_amended_witness :
    cacheMiddleware 60 59999 "k" (⟨200, Payload.msg "fresh"⟩)
        (cacheMiddleware 60 0 "k" ⟨404, Payload.msg "Product not found"⟩
          ([] : Cache Payload)).cache
      = ⟨⟨200, .msg "Product not found"⟩,
          (cacheMiddleware 60 0 "k" ⟨404, Payload.msg "Product not found"⟩
            ([] : Cache Payload)).cache, false⟩ :=
  (c3_amended_cache_stores_any_status 60 0 59999 "k"
    ⟨404, Payload.msg "Product not found"⟩ ⟨200, Payload.msg "fresh"⟩ []
    (by decide) (by decide)).2.2.2

/-- C9: the global invalidation primitive empties the cache for every
key; each of the three write handlers calls it exactly when its write
succeeds (201 created, 200 updated, 204 deleted), clearing the whole
cache; a failed write — 400 validation failure, 409 duplicate key, 404
unknown id, or a storage fault — leaves the cache exactly as it was. -/
theorem c9_invalidate_all_on_successful_writes_only {α : Type} (c : Cache α)
    (key : String) (body : CreateBody) (dbc : WriteResult Product)
    (idu idd : String) (dbu dbd : WriteResult (Option Product)) :
    cacheGet (invalidateCache c) key = none ∧
    ((createProduct body dbc c).invalidated = true ↔
      ∃ p, (createProduct body dbc c).response = some ⟨201, .product p⟩) ∧
    (createProduct body dbc c).cache
      = (if (createProduct body dbc c).invalidated then [] else c) ∧
    ((updateProduct idu dbu c).invalidated = true ↔
      ∃ p, (updateProduct idu dbu c).response = some ⟨200, .product p⟩) ∧
    (updateProduct idu dbu c).cache
      = (if (updateProduct idu dbu c).invalidated then [] else c) ∧
    ((deleteProduct idd dbd c).invalidated = true ↔
      (deleteProduct idd dbd c).response = some ⟨204, .empty⟩) ∧
    (deleteProduct idd dbd c).cache
      = (if (deleteProduct idd dbd c).invalidated then [] else c) := by
  refine ⟨rfl, ?_, ?_, ?_, ?_, ?_, ?_⟩ <;>
    simp only [createProduct, updateProduct, deleteProduct] <;>
    repeat' split <;>
    simp [invalidateCache]

/-- C9 witness: a create missing its name is rejected with 400 and leaves
the cache untouched; a duplicate-slug create gets 409 and leaves it
untouched; a successful create clears it. -/
theorem c9_invalidate_witness :
    (createProduct noNameBody (.ok ⟨"n", "s"⟩) [("k", ⟨(1 : Nat), 10⟩)]).cache
      = [("k", ⟨1, 10⟩)] ∧
    (createProduct okBody .dupKey [("k", ⟨(1 : Nat), 10⟩)]).cache
      = [("k", ⟨1, 10⟩)] ∧
    (createProduct okBody (.ok ⟨"n", "s"⟩) [("k", ⟨(1 : Nat), 10⟩)]).cache
      = [] := by
  have h1 := c9_invalidate_all_on_successful_writes_only
    ([("k", ⟨(1 : Nat), 10⟩)] : Cache Nat) "k" noNameBody
    (.ok ⟨"n", "s"⟩) "x" "x" .fault .fault
  have h2 := c9_invalidate_all_on_successful_writes_only
    ([("k", ⟨(1 : Nat), 10⟩)] : Cache Nat) "k" okBody .dupKey "x" "x" .fault .fault
  have h3 := c9_invalidate_all_on_successful_writes_only
    ([("k", ⟨(1 : Nat), 10⟩)] : Cache Nat) "k" okBody
    (.ok ⟨"n", "s"⟩) "x" "x" .fault .fault
  refine ⟨?_, ?_, ?_⟩
  · rw [h1.2.2.1]; decide
  · rw [h2.2.2.1]; decide
  · rw [h3.2.2.1]; decide

end CatalogService
